import Mathlib

/-!
Verification of `src/core/classes/database/database-table-proxy.ts`
(`CoreDatabaseTableProxy`): a strategy-selector proxy that routes table
operations to a runtime-swappable target implementation.

Shallow embedding: the proxy's mutable state (the async-instance slot holding
the active target, the environment-event subscription, and an allocation
counter giving object identity to constructed targets) is passed explicitly.
Each method of the TypeScript class becomes a Lean function on that state;
asynchronous effects are flattened to the sequence of completed steps each
method performs, recorded as an event trace. Promise rejection of the new
target's `initialize()` inside `updateTarget` is modelled by an explicit
outcome flag: when it rejects, the remaining statements of `updateTarget` do
not run.
-/

/-- `CoreDatabaseCachingStrategy` enum from the source
(`eager`, `lazy`, `none`). -/
inductive CoreDatabaseCachingStrategy
  | Eager
  | Lazy
  | None
  deriving DecidableEq

/-- The constructor (class) of a table implementation, used for the
`originalTarget?.constructor !== this.targetConstructors[...]` comparison in
`shouldUpdateTarget`. `CoreDatabaseTableCtor.CoreDatabaseTable` is the base
class used for the `None` strategy. -/
inductive CoreDatabaseTableCtor
  | CoreEagerDatabaseTable
  | CoreLazyDatabaseTable
  | CoreDatabaseTable
  deriving DecidableEq

/-- The fixed `targetConstructors` registry of the proxy: caching strategy →
constructor. -/
def targetConstructors : CoreDatabaseCachingStrategy → CoreDatabaseTableCtor
  | .Eager => .CoreEagerDatabaseTable
  | .Lazy => .CoreLazyDatabaseTable
  | .None => .CoreDatabaseTable

/-- `CoreDatabaseConfiguration` interface: caching strategy + debug flag. -/
structure CoreDatabaseConfiguration where
  cachingStrategy : CoreDatabaseCachingStrategy
  debug : Bool
  deriving DecidableEq

/-- A `Partial<CoreDatabaseConfiguration>`: both fields optional, as in the
TypeScript spread-merge sources. -/
structure CoreDatabaseConfigurationOverrides where
  cachingStrategy : Option CoreDatabaseCachingStrategy
  debug : Option Bool
  deriving DecidableEq

/-- Object-spread merge `{ ...base, ...o }` for configurations: a field of `o`
that is present wins over `base`. -/
def mergeConfig (base : CoreDatabaseConfiguration)
    (o : CoreDatabaseConfigurationOverrides) : CoreDatabaseConfiguration where
  cachingStrategy := o.cachingStrategy.getD base.cachingStrategy
  debug := o.debug.getD base.debug

/-- A constructed (non-debug) table implementation instance. `id` is the
allocation number, standing for JavaScript object identity; `ctor` is the
class it was constructed with. -/
structure TableInstance where
  id : Nat
  ctor : CoreDatabaseTableCtor
  deriving DecidableEq

/-- A value the proxy's target slot can hold: either a bare implementation, or
a `CoreDebugDatabaseTable` decorator (with its own object identity `id`)
wrapping an inner implementation. -/
inductive Target
  | plain (t : TableInstance)
  | debugWrapped (id : Nat) (t : TableInstance)
  deriving DecidableEq

/-- The `target instanceof CoreDebugDatabaseTable ? target.getTarget() :
target` unwrapping in `shouldUpdateTarget`: the underlying implementation. -/
def originalTarget : Target → TableInstance
  | .plain t => t
  | .debugWrapped _ t => t

/-- Whether the slot value is a `CoreDebugDatabaseTable` decorator. In the
source, `target === originalTarget` (object identity) holds exactly when the
target is not debug-wrapped, since `getTarget()` of a decorator returns the
distinct inner object. -/
def Target.isWrapped : Target → Bool
  | .plain _ => false
  | .debugWrapped _ _ => true

/-- The object-identity numbers a target value occupies (wrapper and inner for
a debug-wrapped target). -/
def Target.ids : Target → List Nat
  | .plain t => [t.id]
  | .debugWrapped i t => [i, t.id]

/-- Modelled from the spec: the `asyncInstance` helper
(`@/core/utils/async-instance`, not part of these sources) is a single-slot
deferred-instance primitive: it holds either an installed instance or none;
a `getInstance()` issued while the instance is absent queues until
`setInstance` resolves it, and `setInstance` resolves all pending waiters
with the newly installed instance. `inst` is the slot's synchronous
`instance` property; `pending` are the identifiers of queued waiters. -/
structure AsyncSlot (α : Type) where
  inst : Option α
  pending : List Nat
  deriving DecidableEq

/-- Modelled from the spec: issuing a `getInstance()` by caller `callerId`:
returns the instance immediately when one is installed, otherwise queues the
caller (returning `none` = suspended). -/
def AsyncSlot.issueGet {α : Type} (s : AsyncSlot α) (callerId : Nat) :
    AsyncSlot α × Option α :=
  match s.inst with
  | some a => (s, some a)
  | none => ({ s with pending := s.pending ++ [callerId] }, none)

/-- Modelled from the spec: `setInstance` installs an instance and resolves
every pending waiter with it; returns the resolutions delivered. -/
def AsyncSlot.setInstance {α : Type} (s : AsyncSlot α) (a : α) :
    AsyncSlot α × List (Nat × α) :=
  ({ inst := some a, pending := [] }, s.pending.map (fun c => (c, a)))

/-- Modelled from the spec: `resetInstance` clears the installed instance;
waiters queued afterwards suspend until the next `setInstance`. -/
def AsyncSlot.resetInstance {α : Type} (s : AsyncSlot α) : AsyncSlot α :=
  { s with inst := none }

/-- Completed steps a proxy method performs, in order, for the swap-protocol
claims: `destroy()` of the old target, `resetInstance`/`setInstance` on the
slot, completed `initialize()` of the new target (named `initTarget` here),
and `environmentObserver.off()` (`unsubscribe`). -/
inductive ProxyEvent
  | destroyTarget (t : Target)
  | resetInstance
  | initTarget (t : Target)
  | setInstance (t : Target)
  | unsubscribe
  deriving DecidableEq

/-- Proxy state: the async-instance `target` slot, the allocation counter for
fresh object identities, and whether the `environmentObserver` subscription is
active. -/
structure ProxyState where
  slot : AsyncSlot Target
  nextId : Nat
  subscribed : Bool
  deriving DecidableEq

/-- Result of running a proxy method: the state after it, the trace of
completed steps, and whether it completed normally (`ok := false` means the
returned promise rejected, here only because the new target's `initialize()`
rejected). -/
structure UpdateResult where
  state : ProxyState
  events : List ProxyEvent
  ok : Bool
  deriving DecidableEq

namespace CoreDatabaseTableProxy

/-- `getConfigDefaults()`: `{ cachingStrategy: None, debug: false }`. -/
def getConfigDefaults : CoreDatabaseConfiguration where
  cachingStrategy := .None
  debug := false

/-- The `this.config = { ...this.getConfigDefaults(), ...config }` assignment
in the constructor. -/
def constructorConfig (config : CoreDatabaseConfigurationOverrides) :
    CoreDatabaseConfiguration :=
  mergeConfig getConfigDefaults config

/-- `getRuntimeConfig()`: after awaiting config readiness, merge the proxy's
config with the global `databaseOptimizations` and the per-table
`databaseTableOptimizations` overrides, later sources winning. -/
def getRuntimeConfig (config : CoreDatabaseConfiguration)
    (globalOptimizations perTableOptimizations :
      CoreDatabaseConfigurationOverrides) : CoreDatabaseConfiguration :=
  mergeConfig (mergeConfig config globalOptimizations) perTableOptimizations

/-- `createTable(cachingStrategy)`: look the constructor up in
`targetConstructors` and instantiate it (a fresh allocation at `freshId`). -/
def createTable (cachingStrategy : CoreDatabaseCachingStrategy)
    (freshId : Nat) : TableInstance where
  id := freshId
  ctor := targetConstructors cachingStrategy

/-- `createTarget()`: build the table for the resolved config's strategy and
debug-wrap it iff `config.debug` (the wrapper being a second, later
allocation). `config` stands for the result of `getRuntimeConfig()`. -/
def createTarget (config : CoreDatabaseConfiguration) (freshId : Nat) :
    Target :=
  let table := createTable config.cachingStrategy freshId
  if config.debug then .debugWrapped (freshId + 1) table else .plain table

/-- How many objects `createTarget` allocates. -/
def allocCount (config : CoreDatabaseConfiguration) : Nat :=
  if config.debug then 2 else 1

/-- `shouldUpdateTarget()`: with the resolved runtime `config` and the
installed `target` (the awaited `this.target.getInstance()`), a swap is
required iff `(config.debug && target === originalTarget) ||
originalTarget.constructor !== targetConstructors[config.cachingStrategy]`. -/
def shouldUpdateTarget (config : CoreDatabaseConfiguration)
    (target : Target) : Bool :=
  (config.debug && !target.isWrapped)
    || (originalTarget target).ctor != targetConstructors config.cachingStrategy

/-- `updateTarget()`: capture `this.target.instance` as the old target, build
a new target from fresh config, then — if an old target existed — await its
`destroy()` and `resetInstance()` the slot; await the new target's
`initialize()`; `setInstance` the new target. `initOk` is whether that
`initialize()` resolves: when it rejects, `setInstance` is never reached and
`updateTarget`'s promise rejects. -/
def updateTarget (config : CoreDatabaseConfiguration) (initOk : Bool)
    (s : ProxyState) : UpdateResult :=
  let oldTarget := s.slot.inst
  let newTarget := createTarget config s.nextId
  let s0 : ProxyState := { s with nextId := s.nextId + allocCount config }
  let cleared : ProxyState × List ProxyEvent :=
    match oldTarget with
    | some old =>
      ({ s0 with slot := s0.slot.resetInstance },
        [.destroyTarget old, .resetInstance])
    | none => (s0, [])
  if initOk then
    { state := { cleared.1 with slot := (cleared.1.slot.setInstance newTarget).1 }
      events := cleared.2 ++ [.initTarget newTarget, .setInstance newTarget]
      ok := true }
  else
    { state := cleared.1, events := cleared.2, ok := false }

/-- `initialize()` of the proxy (spelled `initialise` here): subscribe the
`environmentObserver` to `ENVIRONMENT_UPDATED`, then `await this.updateTarget()`
unconditionally. -/
def initialise (config : CoreDatabaseConfiguration) (initOk : Bool)
    (s : ProxyState) : UpdateResult :=
  updateTarget config initOk { s with subscribed := true }

/-- `destroy()` of the proxy: `this.environmentObserver?.off()` — nothing
else. Returns the unsubscribe step when an active subscription existed. -/
def destroy (s : ProxyState) : ProxyState × List ProxyEvent :=
  ({ s with subscribed := false },
    if s.subscribed then [.unsubscribe] else [])

/-- An `ENVIRONMENT_UPDATED` notification firing: when subscribed, the handler
from `initialise` runs — if `shouldUpdateTarget()` it runs `updateTarget()`,
else returns. `config` is the runtime config resolved inside that handler.
When no instance is installed the handler's `getInstance()` suspends and
nothing further happens in this step; when unsubscribed the handler is not
invoked at all. -/
def fireEnvironmentUpdated (config : CoreDatabaseConfiguration)
    (initOk : Bool) (s : ProxyState) : UpdateResult :=
  if s.subscribed then
    match s.slot.inst with
    | some t =>
      if shouldUpdateTarget config t then updateTarget config initOk s
      else { state := s, events := [], ok := true }
    | none => { state := s, events := [], ok := true }
  else
    { state := s, events := [], ok := true }

/-- Folding a sequence of notifications (each with its resolved config and
init outcome) over the state. -/
def fireAll (configs : List (CoreDatabaseConfiguration × Bool))
    (s : ProxyState) : ProxyState :=
  configs.foldl (fun st cb => (fireEnvironmentUpdated cb.1 cb.2 st).state) s

end CoreDatabaseTableProxy

/-- The Table Interface data operations (lines 91–173 of the source): every
argument and result type is kept opaque (`ε` is the error type of a rejected
promise; results are value-or-error). `Cond` is `Partial<DBRecord>`,
`RichCond` is `CoreDatabaseConditions<DBRecord>`, `Opts` the query options,
`OptsNoPage` the options without offset/limit, `Reducer` the
`CoreDatabaseReducer<DBRecord, T>`. -/
structure CoreDatabaseTableOps
    (ε DBRecord PrimaryKey Cond RichCond Opts OptsNoPage Reducer T : Type) where
  getMany : Option Cond → Option Opts → Except ε (List DBRecord)
  getManyWhere : RichCond → Except ε (List DBRecord)
  getOne : Option Cond → Option OptsNoPage → Except ε DBRecord
  getOneByPrimaryKey : PrimaryKey → Except ε DBRecord
  reduce : Reducer → Option RichCond → Except ε T
  hasAny : Option Cond → Except ε Bool
  count : Option Cond → Except ε Nat
  insert : DBRecord → Except ε Unit
  update : Cond → Option Cond → Except ε Unit
  updateWhere : Cond → RichCond → Except ε Unit
  delete : Option Cond → Except ε Unit
  deleteByPrimaryKey : PrimaryKey → Except ε Unit

/-- The proxy's data operations: each method body is the forwarding call to
the current Active Target (`this.target`), exactly as in lines 91–173 of the
source. -/
def CoreDatabaseTableProxy.dataOps
    {ε DBRecord PrimaryKey Cond RichCond Opts OptsNoPage Reducer T : Type}
    (target : CoreDatabaseTableOps ε DBRecord PrimaryKey Cond RichCond Opts
      OptsNoPage Reducer T) :
    CoreDatabaseTableOps ε DBRecord PrimaryKey Cond RichCond Opts OptsNoPage
      Reducer T where
  getMany conditions options := target.getMany conditions options
  getManyWhere conditions := target.getManyWhere conditions
  getOne conditions options := target.getOne conditions options
  getOneByPrimaryKey primaryKey := target.getOneByPrimaryKey primaryKey
  reduce reducer conditions := target.reduce reducer conditions
  hasAny conditions := target.hasAny conditions
  count conditions := target.count conditions
  insert record := target.insert record
  update updates conditions := target.update updates conditions
  updateWhere updates conditions := target.updateWhere updates conditions
  delete conditions := target.delete conditions
  deleteByPrimaryKey primaryKey := target.deleteByPrimaryKey primaryKey

open CoreDatabaseTableProxy

/-- Conclusion of the strategy-change-swap property (C2), for a resolved
config, proxy state and installed old target. -/
def StrategyChangeSwapConcl (config : CoreDatabaseConfiguration)
    (s : ProxyState) (old : Target) : Prop :=
  shouldUpdateTarget config old = true
  ∧ (fireEnvironmentUpdated config true s).state.slot.inst
      = some (createTarget config s.nextId)
  ∧ (originalTarget (createTarget config s.nextId)).ctor
      = targetConstructors config.cachingStrategy
  ∧ createTarget config s.nextId ≠ old
  ∧ (config.debug = false →
      createTarget config s.nextId
        = Target.plain (createTable config.cachingStrategy s.nextId))
  ∧ (fireEnvironmentUpdated config true s).events
      = [ProxyEvent.destroyTarget old, ProxyEvent.resetInstance,
         ProxyEvent.initTarget (createTarget config s.nextId),
         ProxyEvent.setInstance (createTarget config s.nextId)]

/-- C1 (forwarding transparency): for every data operation of the Table
Interface and every argument tuple, the proxy's result (value or error)
equals the result of invoking the same operation with the same arguments
directly on the current Active Target; no transformation is applied to
arguments, results, or errors. -/
theorem forwarding_transparency
    {ε DBRecord PrimaryKey Cond RichCond Opts OptsNoPage Reducer T : Type}
    (target : CoreDatabaseTableOps ε DBRecord PrimaryKey Cond RichCond Opts
      OptsNoPage Reducer T) :
    (∀ conditions options,
      (dataOps target).getMany conditions options
        = target.getMany conditions options)
    ∧ (∀ conditions,
      (dataOps target).getManyWhere conditions = target.getManyWhere conditions)
    ∧ (∀ conditions options,
      (dataOps target).getOne conditions options
        = target.getOne conditions options)
    ∧ (∀ primaryKey,
      (dataOps target).getOneByPrimaryKey primaryKey
        = target.getOneByPrimaryKey primaryKey)
    ∧ (∀ reducer conditions,
      (dataOps target).reduce reducer conditions
        = target.reduce reducer conditions)
    ∧ (∀ conditions, (dataOps target).hasAny conditions = target.hasAny conditions)
    ∧ (∀ conditions, (dataOps target).count conditions = target.count conditions)
    ∧ (∀ record, (dataOps target).insert record = target.insert record)
    ∧ (∀ updates conditions,
      (dataOps target).update updates conditions
        = target.update updates conditions)
    ∧ (∀ updates conditions,
      (dataOps target).updateWhere updates conditions
        = target.updateWhere updates conditions)
    ∧ (∀ conditions, (dataOps target).delete conditions = target.delete conditions)
    ∧ (∀ primaryKey,
      (dataOps target).deleteByPrimaryKey primaryKey
        = target.deleteByPrimaryKey primaryKey) :=
  ⟨fun _ _ => rfl, fun _ => rfl, fun _ _ => rfl, fun _ => rfl, fun _ _ => rfl,
   fun _ => rfl, fun _ => rfl, fun _ => rfl, fun _ _ => rfl, fun _ _ => rfl,
   fun _ => rfl, fun _ => rfl⟩

/-- C2 (strategy-change swap): if the installed target's underlying
implementation was built with a constructor that differs from the registry
constructor for the resolved config's strategy, an environment-update
notification swaps in a freshly constructed target of the resolved strategy's
registered constructor, and the old instance's `destroy()` is called before
the handle is cleared. -/
theorem strategy_change_swap (config : CoreDatabaseConfiguration)
    (s : ProxyState) (old : Target)
    (hsub : s.subscribed = true)
    (hinst : s.slot.inst = some old)
    (hstrat : (originalTarget old).ctor ≠ targetConstructors config.cachingStrategy)
    (hfresh : ∀ i ∈ old.ids, i < s.nextId) :
    StrategyChangeSwapConcl config s old := by
  have hshould : shouldUpdateTarget config old = true := by
    simp only [shouldUpdateTarget, Bool.or_eq_true, bne_iff_ne, ne_eq]
    exact Or.inr hstrat
  have hctor : (originalTarget (createTarget config s.nextId)).ctor
      = targetConstructors config.cachingStrategy := by
    cases hd : config.debug <;>
      simp [createTarget, createTable, originalTarget, hd]
  have hne : createTarget config s.nextId ≠ old := by
    intro he
    have hmem : s.nextId ∈ (createTarget config s.nextId).ids := by
      cases hd : config.debug <;>
        simp [createTarget, createTable, Target.ids, hd]
    rw [he] at hmem
    exact absurd (hfresh _ hmem) (lt_irrefl _)
  refine ⟨hshould, ?_, hctor, hne, ?_, ?_⟩
  · simp [fireEnvironmentUpdated, hsub, hinst, hshould, updateTarget,
      AsyncSlot.resetInstance, AsyncSlot.setInstance]
  · intro hd
    simp [createTarget, hd]
  · simp [fireEnvironmentUpdated, hsub, hinst, hshould, updateTarget,
      AsyncSlot.resetInstance, AsyncSlot.setInstance]

/-- Witness for C2: concrete swap from the `None` base table to the `Eager`
strategy. -/
theorem strategy_change_swap_witness :
    StrategyChangeSwapConcl ⟨.Eager, false⟩
      ⟨⟨some (Target.plain ⟨0, .CoreDatabaseTable⟩), []⟩, 1, true⟩
      (Target.plain ⟨0, .CoreDatabaseTable⟩) :=
  strategy_change_swap _ _ _ (by decide) (by decide) (by decide) (by decide)

/-- Conclusion of the swap-window protocol (C3): event order of
`updateTarget`, suspension of a data operation issued while the handle is
cleared, and its resolution with the fully-initialized new target. -/
def SwapWindowConcl (config : CoreDatabaseConfiguration) (s : ProxyState)
    (old : Target) (callerId : Nat) : Prop :=
  (updateTarget config true s).events
      = [ProxyEvent.destroyTarget old, ProxyEvent.resetInstance,
         ProxyEvent.initTarget (createTarget config s.nextId),
         ProxyEvent.setInstance (createTarget config s.nextId)]
  ∧ (AsyncSlot.issueGet s.slot.resetInstance callerId).2 = none
  ∧ (AsyncSlot.setInstance (AsyncSlot.issueGet s.slot.resetInstance callerId).1
        (createTarget config s.nextId)).2
      = (s.slot.pending ++ [callerId]).map
          (fun c => (c, createTarget config s.nextId))
  ∧ (updateTarget config true s).state.slot.inst
      = some (createTarget config s.nextId)

/-- C3 (swap-window protocol): during `updateTarget` with an existing old
target, the old target's `destroy()` completes before the slot is cleared,
the new target's `initialize()` completes before it is installed (the event
trace is exactly destroy, reset, init, set), a `getInstance()` issued on the
cleared slot suspends (queues), and the subsequent `setInstance` resolves the
queued caller with the new (already initialized) target. -/
theorem swap_window_protocol (config : CoreDatabaseConfiguration)
    (s : ProxyState) (old : Target) (callerId : Nat)
    (hinst : s.slot.inst = some old) :
    SwapWindowConcl config s old callerId := by
  refine ⟨?_, ?_, ?_, ?_⟩
  · simp [updateTarget, hinst, AsyncSlot.resetInstance, AsyncSlot.setInstance]
  · simp [AsyncSlot.issueGet, AsyncSlot.resetInstance]
  · simp [AsyncSlot.issueGet, AsyncSlot.resetInstance, AsyncSlot.setInstance]
  · simp [updateTarget, hinst, AsyncSlot.resetInstance, AsyncSlot.setInstance]

/-- Witness for C3: concrete swap with one queued caller. -/
theorem swap_window_protocol_witness :
    SwapWindowConcl ⟨.None, false⟩
      ⟨⟨some (Target.plain ⟨0, .CoreDatabaseTable⟩), []⟩, 1, false⟩
      (Target.plain ⟨0, .CoreDatabaseTable⟩) 7 :=
  swap_window_protocol _ _ _ _ (by decide)

/-- C4 counterexample: with an installed target and a new target whose
`initialize()` rejects, `updateTarget` ends with NO installed Active Target —
refuting the claim that after the failed swap some target is still
installed. -/
theorem failed_init_recovery_counterexample :
    ¬ ∃ t : Target,
      (updateTarget ⟨.Lazy, false⟩ false
          ⟨⟨some (Target.plain ⟨0, .CoreDatabaseTable⟩), []⟩, 1, true⟩
        ).state.slot.inst = some t := by
  have h : (updateTarget ⟨.Lazy, false⟩ false
      ⟨⟨some (Target.plain ⟨0, .CoreDatabaseTable⟩), []⟩, 1, true⟩
    ).state.slot.inst = none := by decide
  rintro ⟨t, ht⟩
  rw [h] at ht
  exact Option.noConfusion ht

/-- Conclusion of the amended C4: what the code actually does when the new
target's `initialize()` rejects during a swap that replaces an existing
target. -/
def FailedInitConcl (config : CoreDatabaseConfiguration) (s : ProxyState)
    (old : Target) (callerId : Nat) : Prop :=
  (updateTarget config false s).ok = false
  ∧ (updateTarget config false s).state.slot.inst = none
  ∧ (updateTarget config false s).events
      = [ProxyEvent.destroyTarget old, ProxyEvent.resetInstance]
  ∧ (AsyncSlot.issueGet (updateTarget config false s).state.slot callerId).2
      = none

/-- C4 (amended): if the new target's `initialize()` fails during a swap that
replaces an existing Active Target, the Selector IS left without any Active
Target: the old target has been destroyed and the handle cleared, no target
is installed, and a subsequent data operation suspends on the empty handle
until some later `setInstance`. -/
theorem failed_init_leaves_no_target (config : CoreDatabaseConfiguration)
    (s : ProxyState) (old : Target) (callerId : Nat)
    (hinst : s.slot.inst = some old) :
    FailedInitConcl config s old callerId := by
  refine ⟨?_, ?_, ?_, ?_⟩ <;>
    simp [updateTarget, hinst, AsyncSlot.resetInstance, AsyncSlot.issueGet]

/-- Witness for the amended C4. -/
theorem failed_init_leaves_no_target_witness :
    FailedInitConcl ⟨.Lazy, false⟩
      ⟨⟨some (Target.plain ⟨0, .CoreDatabaseTable⟩), []⟩, 1, true⟩
      (Target.plain ⟨0, .CoreDatabaseTable⟩) 5 :=
  failed_init_leaves_no_target _ _ _ _ (by decide)

/-- Conclusion of the no-spurious-swap property (C5). -/
def NoSpuriousSwapConcl (config : CoreDatabaseConfiguration) (i : Nat)
    (initOk : Bool) (s : ProxyState) : Prop :=
  shouldUpdateTarget config (createTarget config i) = false
  ∧ fireEnvironmentUpdated config initOk s = ⟨s, [], true⟩

/-- C5 (no spurious swap): when the installed Active Target was built from the
same resolved config (same strategy, same debug flag, any combination), an
environment-update notification leaves the state untouched: `shouldUpdateTarget`
is false and the very same instance remains installed. -/
theorem no_spurious_swap (config : CoreDatabaseConfiguration) (i : Nat)
    (initOk : Bool) (s : ProxyState)
    (hinst : s.slot.inst = some (createTarget config i)) :
    NoSpuriousSwapConcl config i initOk s := by
  have hshould : shouldUpdateTarget config (createTarget config i) = false := by
    cases hd : config.debug <;>
      simp [shouldUpdateTarget, createTarget, createTable, originalTarget,
        Target.isWrapped, hd]
  refine ⟨hshould, ?_⟩
  cases hs : s.subscribed <;>
    simp [fireEnvironmentUpdated, hs, hinst, hshould]

/-- Witness for C5: debug-wrapped Eager target, unchanged config. -/
theorem no_spurious_swap_witness :
    NoSpuriousSwapConcl ⟨.Eager, true⟩ 0 true
      ⟨⟨some (createTarget ⟨.Eager, true⟩ 0), []⟩, 2, true⟩ :=
  no_spurious_swap _ _ _ _ (by decide)

/-- Conclusion of the debug-on-detection property (C6). -/
def DebugOnDetectionConcl (strat : CoreDatabaseCachingStrategy)
    (t : TableInstance) (s : ProxyState) : Prop :=
  shouldUpdateTarget ⟨strat, true⟩ (Target.plain t) = true
  ∧ (fireEnvironmentUpdated ⟨strat, true⟩ true s).state.slot.inst
      = some (Target.debugWrapped (s.nextId + 1) (createTable strat s.nextId))
  ∧ (createTable strat s.nextId).ctor = targetConstructors strat
  ∧ createTable strat s.nextId ≠ t

/-- C6 (debug-on detection): when the resolved config turns debug on with the
strategy unchanged (installed target is a bare instance of that strategy's
registered constructor), the notification triggers a swap and the new Active
Target is a debug decorator whose unwrapped target is a fresh instance of the
same strategy's registered constructor. -/
theorem debug_on_detection (strat : CoreDatabaseCachingStrategy)
    (t : TableInstance) (s : ProxyState)
    (hsub : s.subscribed = true)
    (hinst : s.slot.inst = some (Target.plain t))
    (hctor : t.ctor = targetConstructors strat)
    (hfresh : t.id < s.nextId) :
    DebugOnDetectionConcl strat t s := by
  have hshould : shouldUpdateTarget ⟨strat, true⟩ (Target.plain t) = true := by
    simp [shouldUpdateTarget, Target.isWrapped]
  refine ⟨hshould, ?_, ?_, ?_⟩
  · simp [fireEnvironmentUpdated, hsub, hinst, hshould, updateTarget,
      createTarget, AsyncSlot.resetInstance, AsyncSlot.setInstance]
  · simp [createTable]
  · intro he
    have hid : (createTable strat s.nextId).id = t.id := congrArg TableInstance.id he
    simp [createTable] at hid
    omega

/-- Witness for C6: Lazy strategy, debug turned on. -/
theorem debug_on_detection_witness :
    DebugOnDetectionConcl .Lazy ⟨0, .CoreLazyDatabaseTable⟩
      ⟨⟨some (Target.plain ⟨0, .CoreLazyDatabaseTable⟩), []⟩, 1, true⟩ :=
  debug_on_detection _ _ _ (by decide) (by decide) (by decide) (by decide)

/-- Conclusion of the debug-off-gap property (C7). -/
def DebugOffGapConcl (strat : CoreDatabaseCachingStrategy) (w : Nat)
    (t : TableInstance) (initOk : Bool) (s : ProxyState) : Prop :=
  shouldUpdateTarget ⟨strat, false⟩ (Target.debugWrapped w t) = false
  ∧ fireEnvironmentUpdated ⟨strat, false⟩ initOk s = ⟨s, [], true⟩

/-- C7 (debug-off gap): when only the debug flag changes from true to false
(installed target is debug-wrapped around an instance of the resolved
strategy's registered constructor), `shouldUpdateTarget` is false and the
notification causes no swap: the previous debug-wrapped instance remains the
Active Target. -/
theorem debug_off_gap (strat : CoreDatabaseCachingStrategy) (w : Nat)
    (t : TableInstance) (initOk : Bool) (s : ProxyState)
    (hinst : s.slot.inst = some (Target.debugWrapped w t))
    (hctor : t.ctor = targetConstructors strat) :
    DebugOffGapConcl strat w t initOk s := by
  have hshould : shouldUpdateTarget ⟨strat, false⟩ (Target.debugWrapped w t)
      = false := by
    simp [shouldUpdateTarget, Target.isWrapped, originalTarget, hctor]
  refine ⟨hshould, ?_⟩
  cases hs : s.subscribed <;>
    simp [fireEnvironmentUpdated, hs, hinst, hshould]

/-- Witness for C7: Eager strategy with debug dropped from the config. -/
theorem debug_off_gap_witness :
    DebugOffGapConcl .Eager 1 ⟨0, .CoreEagerDatabaseTable⟩ true
      ⟨⟨some (Target.debugWrapped 1 ⟨0, .CoreEagerDatabaseTable⟩), []⟩, 2, true⟩ :=
  debug_off_gap _ _ _ _ _ (by decide) (by decide)

/-- Conclusion of the initialization-protocol property (C8). -/
def InitialisationConcl (config : CoreDatabaseConfiguration) (initOk : Bool)
    (s : ProxyState) : Prop :=
  initialise config initOk s
      = updateTarget config initOk { s with subscribed := true }
  ∧ (initialise config true s).state.slot.inst
      = some (createTarget config s.nextId)
  ∧ (initialise config true s).state.subscribed = true
  ∧ (initialise config true s).events
      = [ProxyEvent.initTarget (createTarget config s.nextId),
         ProxyEvent.setInstance (createTarget config s.nextId)]

/-- C8 (initialization protocol): `initialize()` first subscribes and then
runs `updateTarget` unconditionally (no `shouldUpdateTarget` gate); on a fresh
Selector (empty slot) exactly one Active Target ends up installed, built from
the config resolved at that time, with no destroy of any previous target in
the trace. -/
theorem initialisation_protocol (config : CoreDatabaseConfiguration)
    (initOk : Bool) (s : ProxyState)
    (hinst : s.slot.inst = none) :
    InitialisationConcl config initOk s := by
  refine ⟨rfl, ?_, ?_, ?_⟩ <;>
    simp [initialise, updateTarget, hinst, AsyncSlot.setInstance]

/-- Witness for C8: fresh Selector, `None` strategy with debug on. -/
theorem initialisation_protocol_witness :
    InitialisationConcl ⟨.None, true⟩ true ⟨⟨none, []⟩, 0, false⟩ :=
  initialisation_protocol _ _ _ (by decide)

/-- A notification fired on an unsubscribed proxy does nothing: the handler
installed by `initialise` is not invoked once `environmentObserver.off()` has
run. -/
theorem fire_unsubscribed (config : CoreDatabaseConfiguration) (initOk : Bool)
    (s : ProxyState) (h : s.subscribed = false) :
    fireEnvironmentUpdated config initOk s = ⟨s, [], true⟩ := by
  simp [fireEnvironmentUpdated, h]

/-- Any sequence of notifications leaves an unsubscribed proxy's state
unchanged. -/
theorem fireAll_unsubscribed
    (cfgs : List (CoreDatabaseConfiguration × Bool)) (st : ProxyState)
    (h : st.subscribed = false) : fireAll cfgs st = st := by
  induction cfgs generalizing st with
  | nil => rfl
  | cons c rest ih =>
    show fireAll rest (fireEnvironmentUpdated c.1 c.2 st).state = st
    rw [fire_unsubscribed c.1 c.2 st h]
    exact ih st h

/-- C9 (destroy stops swaps): after the proxy's `destroy()`, the environment
subscription is off, and every subsequently fired notification (any sequence
of resolved configs and init outcomes) causes no further swap: the state —
and in particular the installed Active Target instance — stays exactly as it
was at the time of `destroy()`. -/
theorem destroy_stops_swaps (s : ProxyState)
    (cfgs : List (CoreDatabaseConfiguration × Bool)) :
    (destroy s).1.subscribed = false
    ∧ (destroy s).1.slot = s.slot
    ∧ fireAll cfgs (destroy s).1 = (destroy s).1 :=
  ⟨rfl, rfl, fireAll_unsubscribed cfgs (destroy s).1 rfl⟩

/-- C10 counterexample: `destroy()` on a Selector with an installed Active
Target emits only the unsubscribe step — it does not call the installed
target's `destroy()` (no such step in the trace), and the target remains
installed — refuting the claim that `destroy()` destroys the Active Target. -/
theorem destroy_ownership_counterexample :
    (destroy ⟨⟨some (Target.plain ⟨0, .CoreEagerDatabaseTable⟩), []⟩, 1, true⟩).2
        = [ProxyEvent.unsubscribe]
    ∧ ProxyEvent.destroyTarget (Target.plain ⟨0, .CoreEagerDatabaseTable⟩)
        ∉ (destroy ⟨⟨some (Target.plain ⟨0, .CoreEagerDatabaseTable⟩), []⟩,
            1, true⟩).2
    ∧ (destroy ⟨⟨some (Target.plain ⟨0, .CoreEagerDatabaseTable⟩), []⟩,
          1, true⟩).1.slot.inst
        = some (Target.plain ⟨0, .CoreEagerDatabaseTable⟩) := by decide

/-- Conclusion of the amended C10. -/
def DestroyOnlyUnsubscribesConcl (s : ProxyState) (t : Target) : Prop :=
  (destroy s).1.subscribed = false
  ∧ (destroy s).1.slot.inst = some t
  ∧ ∀ u : Target, ProxyEvent.destroyTarget u ∉ (destroy s).2

/-- C10 (amended): `destroy()` on a Selector with an installed Active Target
releases only its subscription: it unsubscribes from environment updates (so
no further swaps occur), but it does not destroy the installed Active Target,
which remains installed and receives no `destroy()` call. -/
theorem destroy_only_unsubscribes (s : ProxyState) (t : Target)
    (hinst : s.slot.inst = some t) :
    DestroyOnlyUnsubscribesConcl s t := by
  refine ⟨rfl, ?_, ?_⟩
  · simpa [destroy] using hinst
  · intro u
    cases hs : s.subscribed <;> simp [destroy, hs]

/-- Witness for the amended C10. -/
theorem destroy_only_unsubscribes_witness :
    DestroyOnlyUnsubscribesConcl
      ⟨⟨some (Target.plain ⟨0, .CoreEagerDatabaseTable⟩), []⟩, 1, true⟩
      (Target.plain ⟨0, .CoreEagerDatabaseTable⟩) :=
  destroy_only_unsubscribes _ _ (by decide)
